import Mathlib

set_option maxRecDepth 10000

/-!
Verification of the MGD (Modèle Génératif Dialectique) engine.

The repository ships two near-identical engine versions:
  * `src/mgd_engine.py`      (v1.1) — embedded here in namespace `MGDv1`
  * `src/mgd_engine_v1.2.py` (v1.2) — embedded here in namespace `MGD`

A state ("Vector") is an integer triple (t, a, s) = (thèse, antithèse,
synthèse).  Python integers are arbitrary precision, so components are
modelled as `Int`.  `float` arithmetic of the cube report is modelled
with `ℚ`; the concrete values involved (ratios with denominator 729)
are exactly representable, and the rounding point 10000/3 is not a tie,
so Python's banker's rounding agrees with round-half-up there.
-/

namespace MGD

/-- The `Vector` type alias of `mgd_engine_v1.2.py`: a triple of Python
integers `(t, a, s)`. -/
abbrev Vector : Type := Int × Int × Int

/-- Seed state `self.M_THESE = (1, 0, 0)` set in `__init__`. -/
def M_THESE : Vector := (1, 0, 0)

/-- Seed state `self.M_ANTITHESE = (0, 1, 0)` set in `__init__`. -/
def M_ANTITHESE : Vector := (0, 1, 0)

/-- Seed state `self.M_SYNTHESE = (0, 0, 1)` set in `__init__`. -/
def M_SYNTHESE : Vector := (0, 0, 1)

/-- `verifier_axiome(self, t, a, s) -> bool`: returns `s >= (t + a)`. -/
def verifier_axiome (t a s : Int) : Bool :=
  decide (s ≥ t + a)

/-- `est_equilibre(self, v) -> bool`: alias applying `verifier_axiome`
to the three components of `v`. -/
def est_equilibre (v : Vector) : Bool :=
  verifier_axiome v.1 v.2.1 v.2.2

/-- `hybridation(self, v1, v2) -> Vector`: component-wise addition,
`tuple(x + y for x, y in zip(v1, v2))`. -/
def hybridation (v1 v2 : Vector) : Vector :=
  (v1.1 + v2.1, v1.2.1 + v2.2.1, v1.2.2 + v2.2.2)

/-- `resolution(self, v) -> Vector` of `mgd_engine_v1.2.py`:
`t, a, s = v; s_equilibre = t + a; if s >= s_equilibre: return v;
return (t, a, s_equilibre)`. -/
def resolution (v : Vector) : Vector :=
  let t := v.1
  let a := v.2.1
  let s := v.2.2
  let s_equilibre := t + a
  if s ≥ s_equilibre then v else (t, a, s_equilibre)

/-- The seed set `{self.M_THESE, self.M_ANTITHESE, self.M_SYNTHESE}`
with which `generer_hybridations` initialises `etats`. -/
def graines : Finset Vector := {M_THESE, M_ANTITHESE, M_SYNTHESE}

/-- One pair-scan of `generer_hybridations`: the set of all values
`resolution (hybridation s1 s2)` for `s1, s2` drawn from `etats`.
The Python loops range over unordered pairs (`for i, s1 in
enumerate(liste_etats): for s2 in liste_etats[i:]`); since
`hybridation` is commutative (`hybridation_comm` below), the set of
produced values over unordered pairs equals the image over all ordered
pairs used here, independently of the arbitrary order of
`list(etats)`. -/
def etape (etats : Finset Vector) : Finset Vector :=
  (etats ×ˢ etats).image fun p => resolution (hybridation p.1 p.2)

/-- The iteration loop of `generer_hybridations` in `mgd_engine_v1.2.py`
(`for iteration in range(max_iterations)` counted down structurally).
Per iteration: `nouveaux` collects the resolved hybrids not already in
`etats` (here `etape etats \ etats`); `if not nouveaux: break` returns
without recording the iteration; otherwise `etats.update(nouveaux)` and
`historique.append(len(nouveaux))`. -/
def generer_hybridations_aux : Nat → Finset Vector → List Nat → List Nat × Finset Vector
  | 0, etats, historique => (historique, etats)
  | n + 1, etats, historique =>
    if etape etats \ etats = ∅ then
      (historique, etats)
    else
      generer_hybridations_aux n (etats ∪ (etape etats \ etats))
        (historique ++ [(etape etats \ etats).card])

/-- `generer_hybridations(self, max_iterations=5, ...)` of
`mgd_engine_v1.2.py`: starts from the three seed states and an empty
history and runs the iteration loop. -/
def generer_hybridations (max_iterations : Nat) : List Nat × Finset Vector :=
  generer_hybridations_aux max_iterations graines []

/-- `generer_hybridations` as called with a Python `int` budget, which
may be negative.  The source contains no validation and raises nothing:
`for iteration in range(max_iterations)` simply executes
`max(0, max_iterations)` times, so the function is total and a negative
budget behaves exactly like a budget of `0`. -/
def generer_hybridations_int (max_iterations : Int) : List Nat × Finset Vector :=
  generer_hybridations max_iterations.toNat

/-- `generer_cube_27(self) -> List[Vector]`:
`list(product(range(3), repeat=3))`, first component varying slowest. -/
def generer_cube_27 : List Vector :=
  (List.range 3).flatMap fun t =>
    (List.range 3).flatMap fun a =>
      (List.range 3).map fun s => ((t : Int), (a : Int), (s : Int))

/-- `ancrage_valide(self, v1, v2) -> bool`: returns `v1[1] == v2[0]`. -/
def ancrage_valide (v1 v2 : Vector) : Bool :=
  decide (v1.2.1 = v2.1)

/-- The report dictionary returned by `analyser_cube_27`. -/
structure CubeStats where
  nombre_points : Nat
  total_paires : Nat
  ancrages_valides : Nat
  ratio_percentage : ℚ

/-- Python's `round(x, 2)` on the ratio, modelled as round-to-nearest
of `x * 100` divided by `100` (the argument is never an exact tie in
this development, where banker's rounding could differ). -/
def arrondi2 (q : ℚ) : ℚ :=
  (round (q * 100) : ℤ) / 100

/-- `analyser_cube_27(self)` of `mgd_engine_v1.2.py`:
`total_paires = len(cube) ** 2`;
`ancrages_valides = sum(1 for p1 in cube for p2 in cube if
self.ancrage_valide(p1, p2))`; `ratio = (ancrages_valides /
total_paires) * 100`; the dict holds `round(ratio, 2)`. -/
def analyser_cube_27 : CubeStats :=
  let cube := generer_cube_27
  let total_paires := cube.length ^ 2
  let ancrages_valides :=
    (cube.flatMap fun p1 => cube.filter fun p2 => ancrage_valide p1 p2).length
  let ratio : ℚ := ((ancrages_valides : ℚ) / (total_paires : ℚ)) * 100
  ⟨cube.length, total_paires, ancrages_valides, arrondi2 ratio⟩

end MGD

namespace MGDv1

/-- `resolution(self, v)` of `mgd_engine.py` (v1.1):
`t, a, s = v; s_min = t + a; return (t, a, max(s, s_min))`. -/
def resolution (v : MGD.Vector) : MGD.Vector :=
  let t := v.1
  let a := v.2.1
  let s := v.2.2
  let s_min := t + a
  (t, a, max s s_min)

end MGDv1

namespace MGD

/- ------------------------------------------------------------------
Helper lemmas (shared; not tied to a single claim).
------------------------------------------------------------------ -/

/-- `hybridation` is commutative, so scanning unordered pairs produces
the same value set as scanning all ordered pairs. -/
lemma hybridation_comm (v1 v2 : Vector) :
    hybridation v1 v2 = hybridation v2 v1 := by
  simp only [hybridation]
  exact Prod.ext (by ring) (Prod.ext (by ring) (by ring))

/-- Every output of `resolution` satisfies the balance axiom. -/
lemma est_equilibre_resolution (v : Vector) :
    est_equilibre (resolution v) = true := by
  obtain ⟨t, a, s⟩ := v
  simp only [resolution, est_equilibre, verifier_axiome]
  split
  · simpa using by omega
  · simp

/-- Every member of `etape S` is balanced (it is the output of a
`resolution`). -/
lemma est_equilibre_of_mem_etape {S : Finset Vector} {v : Vector}
    (hv : v ∈ etape S) : est_equilibre v = true := by
  simp only [etape, Finset.mem_image] at hv
  obtain ⟨p, -, rfl⟩ := hv
  exact est_equilibre_resolution _

/-- The known-state set only ever grows across iterations. -/
lemma subset_generer_hybridations_aux (n : Nat) :
    ∀ S h, S ⊆ (generer_hybridations_aux n S h).2 := by
  induction n with
  | zero =>
    intro S h
    simp [generer_hybridations_aux]
  | succ n ih =>
    intro S h
    simp only [generer_hybridations_aux]
    split
    · simp
    · exact Finset.Subset.trans Finset.subset_union_left (ih _ _)

/-- Invariant: every state in the final set was in the initial set or
is balanced (it was added as the output of a `resolution`). -/
lemma mem_generer_hybridations_aux (n : Nat) :
    ∀ S h v, v ∈ (generer_hybridations_aux n S h).2 →
      v ∈ S ∨ est_equilibre v = true := by
  induction n with
  | zero =>
    intro S h v hv
    left
    simpa [generer_hybridations_aux] using hv
  | succ n ih =>
    intro S h v hv
    simp only [generer_hybridations_aux] at hv
    split at hv
    · left; exact hv
    · rcases ih _ _ v hv with h1 | h1
      · rcases Finset.mem_union.mp h1 with h2 | h2
        · left; exact h2
        · right; exact est_equilibre_of_mem_etape (Finset.mem_sdiff.mp h2).1
      · right; exact h1

/-- Every history entry appended by the loop is positive (the loop
breaks before recording a zero-growth iteration). -/
lemma pos_mem_generer_hybridations_aux (n : Nat) :
    ∀ S h, (∀ k ∈ h, 0 < k) → ∀ k ∈ (generer_hybridations_aux n S h).1, 0 < k := by
  induction n with
  | zero =>
    intro S h hh
    simpa [generer_hybridations_aux] using hh
  | succ n ih =>
    intro S h hh
    simp only [generer_hybridations_aux]
    split
    · simpa using hh
    · rename_i hne
      apply ih
      intro k hk
      rcases List.mem_append.mp hk with hk | hk
      · exact hh _ hk
      · have hk' : k = (etape S \ S).card := by simpa using hk
        subst hk'
        exact Finset.card_pos.mpr (Finset.nonempty_iff_ne_empty.mpr hne)

/-- The history grows by at most one entry per budgeted iteration. -/
lemma length_generer_hybridations_aux (n : Nat) :
    ∀ S h, (generer_hybridations_aux n S h).1.length ≤ h.length + n := by
  induction n with
  | zero =>
    intro S h
    simp [generer_hybridations_aux]
  | succ n ih =>
    intro S h
    simp only [generer_hybridations_aux]
    split
    · show h.length ≤ h.length + (n + 1)
      omega
    · calc (generer_hybridations_aux n _ (h ++ [(etape S \ S).card])).1.length
          ≤ (h ++ [(etape S \ S).card]).length + n := ih _ _
        _ ≤ h.length + (n + 1) := by
            simp only [List.length_append, List.length_singleton]
            omega

/- ------------------------------------------------------------------
Claim theorems.
------------------------------------------------------------------ -/

/-- C4: Idempotence of `resolution`: for every integer triple `v`,
`resolution (resolution v) = resolution v`. -/
theorem resolution_idempotent (v : Vector) :
    resolution (resolution v) = resolution v := by
  obtain ⟨t, a, s⟩ := v
  simp only [resolution]
  split
  · rfl
  · simp

/-- C5: The output of `resolution` always satisfies the balance
predicate: `verifier_axiome` applied to the components of
`resolution v` is `true`. -/
theorem resolution_balanced (v : Vector) :
    verifier_axiome (resolution v).1 (resolution v).2.1 (resolution v).2.2 = true :=
  est_equilibre_resolution v

/-- C6: `resolution` never alters the first two components and never
decreases the third: for every integer triple `(t, a, s)`,
`resolution (t, a, s)` has the same `t` and `a` and a synthesis
component `≥ s`. -/
theorem resolution_frame (v : Vector) :
    (resolution v).1 = v.1 ∧ (resolution v).2.1 = v.2.1 ∧ v.2.2 ≤ (resolution v).2.2 := by
  obtain ⟨t, a, s⟩ := v
  simp only [resolution]
  split
  · simp
  · simp; omega

/-- C7 counterexample: the spec says resolving the hybrid
`hybridation (1,0,0) (0,1,0) = (1,1,0)` yields `(1,1,1)`; in the code
it does not (the synthesis component is raised to `t + a = 2`). -/
theorem resolution_hybrid_seeds_ne :
    resolution (hybridation M_THESE M_ANTITHESE) ≠ ((1 : Int), (1 : Int), (1 : Int)) := by
  decide

/-- C7 (amended): the hybrid of the thesis and antithesis seeds is
`(1,1,0)` and resolving it yields `(1,1,2)`. -/
theorem resolution_hybrid_seeds_eq :
    hybridation M_THESE M_ANTITHESE = ((1 : Int), (1 : Int), (0 : Int)) ∧
      resolution (hybridation M_THESE M_ANTITHESE) = ((1 : Int), (1 : Int), (2 : Int)) := by
  decide

/-- C9: The v1.1 and v1.2 resolution operators are extensionally
equal: for every integer triple, `MGDv1.resolution v = MGD.resolution v`. -/
theorem resolution_versions_eq (v : Vector) :
    MGDv1.resolution v = resolution v := by
  obtain ⟨t, a, s⟩ := v
  simp only [MGDv1.resolution, resolution]
  split
  · simp; omega
  · simp; omega

/-- C1 counterexample: with the non-negative budget `0` the final state
set contains the seed `(1,0,0)`, which violates the balance predicate
(`0 ≥ 1 + 0` is false) — so not every member of the final set is
balanced. -/
theorem generer_hybridations_unbalanced_member :
    M_THESE ∈ (generer_hybridations 0).2 ∧
      verifier_axiome M_THESE.1 M_THESE.2.1 M_THESE.2.2 = false := by
  decide

/-- C1 (amended): for every non-negative budget, the final state set is
a superset of the three seeds, and every member of the final set other
than the seeds satisfies the balance predicate `s ≥ t + a`. -/
theorem generer_hybridations_superset_balanced (n : Nat) :
    graines ⊆ (generer_hybridations n).2 ∧
      ∀ v ∈ (generer_hybridations n).2, v ∉ graines →
        verifier_axiome v.1 v.2.1 v.2.2 = true := by
  constructor
  · exact subset_generer_hybridations_aux n graines []
  · intro v hv hvg
    rcases mem_generer_hybridations_aux n graines [] v hv with h | h
    · exact absurd h hvg
    · exact h

/-- C1 witness: at budget `1` the non-seed state `(0,0,2)` is in the
final set and the theorem yields that it is balanced. -/
theorem generer_hybridations_superset_balanced_apply :
    verifier_axiome (0 : Int) (0 : Int) (2 : Int) = true :=
  (generer_hybridations_superset_balanced 1).2 ((0 : Int), (0 : Int), (2 : Int))
    (by decide) (by decide)

/-- C2: the growth history of `generer_hybridations` (v1.2) has at most
`max_iterations` entries and every entry is positive; moreover, when an
iteration produces no new vector, the loop returns at once without
appending an entry for that iteration. -/
theorem generer_hybridations_historique_spec :
    (∀ n, (generer_hybridations n).1.length ≤ n ∧
      ∀ k ∈ (generer_hybridations n).1, 0 < k) ∧
    ∀ S h n, etape S \ S = ∅ → generer_hybridations_aux (n + 1) S h = (h, S) := by
  constructor
  · intro n
    refine ⟨?_, ?_⟩
    · simpa using length_generer_hybridations_aux n graines []
    · exact pos_mem_generer_hybridations_aux n graines [] (by simp)
  · intro S h n hS
    simp [generer_hybridations_aux, hS]

/-- C2 witness: on the empty state set an iteration produces no new
vector and the loop returns the unchanged history and state set. -/
theorem generer_hybridations_historique_spec_apply :
    generer_hybridations_aux 1 ∅ [] = ([], ∅) :=
  generer_hybridations_historique_spec.2 ∅ [] 0 (by decide)

/-- C3: `analyser_cube_27` reports 27 points, 729 ordered pairs, 243
valid anchorings (ordered cube pairs `(p1, p2)` with
`p1[1] == p2[0]`), and a percentage rounded to `33.33`. -/
theorem analyser_cube_27_spec :
    analyser_cube_27.nombre_points = 27 ∧
    analyser_cube_27.total_paires = 729 ∧
    analyser_cube_27.ancrages_valides = 243 ∧
    analyser_cube_27.ratio_percentage = 3333 / 100 := by
  have hlen : generer_cube_27.length = 27 := by decide
  have hcnt : (generer_cube_27.flatMap fun p1 =>
      generer_cube_27.filter fun p2 => ancrage_valide p1 p2).length = 243 := by decide
  refine ⟨hlen, ?_, hcnt, ?_⟩
  · show generer_cube_27.length ^ 2 = 729
    rw [hlen]
    norm_num
  · show arrondi2 ((((generer_cube_27.flatMap fun p1 =>
        generer_cube_27.filter fun p2 => ancrage_valide p1 p2).length : Nat) : ℚ) /
        ((generer_cube_27.length ^ 2 : Nat) : ℚ) * 100) = 3333 / 100
    rw [hcnt, hlen]
    norm_num [arrondi2, round_eq]

/-- C8 counterexample: calling the closure with the negative budget
`-5` is not rejected: it completes normally, returning the empty
history and the untouched seed set. -/
theorem generer_hybridations_int_neg_example :
    generer_hybridations_int (-5) = ([], graines) := by
  decide

/-- C8 (amended): a negative iteration budget is silently treated like
a budget of `0`: the loop body never runs and the call returns the
normal result `([], graines)` — no input-validation failure exists. -/
theorem generer_hybridations_int_neg (m : Int) (hm : m < 0) :
    generer_hybridations_int m = ([], graines) := by
  have h0 : m.toNat = 0 := Int.toNat_of_nonpos (le_of_lt hm)
  simp [generer_hybridations_int, generer_hybridations, h0,
    generer_hybridations_aux]

/-- C8 witness: the amended theorem applied at the concrete negative
budget `-1`. -/
theorem generer_hybridations_int_neg_apply :
    generer_hybridations_int (-1) = ([], graines) :=
  generer_hybridations_int_neg (-1) (by decide)

/-- C10: for every non-negative budget, every member of the final state
set is either one of the three seeds or balanced, and the two unbalanced
seeds `(1,0,0)` and `(0,1,0)` are always present in the final set. -/
theorem generer_hybridations_etats_spec (n : Nat) :
    (∀ v ∈ (generer_hybridations n).2,
        v ∈ graines ∨ verifier_axiome v.1 v.2.1 v.2.2 = true) ∧
      M_THESE ∈ (generer_hybridations n).2 ∧
      M_ANTITHESE ∈ (generer_hybridations n).2 := by
  refine ⟨fun v hv => mem_generer_hybridations_aux n graines [] v hv, ?_, ?_⟩
  · exact subset_generer_hybridations_aux n graines [] (by decide)
  · exact subset_generer_hybridations_aux n graines [] (by decide)

/-- C10 witness: at budget `1` the member `(1,0,1)` of the final set is
a seed or balanced. -/
theorem generer_hybridations_etats_spec_apply :
    ((1 : Int), (0 : Int), (1 : Int)) ∈ graines ∨
      verifier_axiome (1 : Int) (0 : Int) (1 : Int) = true :=
  (generer_hybridations_etats_spec 1).1 ((1 : Int), (0 : Int), (1 : Int)) (by decide)

end MGD
